import Mathlib

/-!
Verification development for the BoxCars backend (Express + MongoDB REST API).

The definitions below are a shallow embedding of the repository's route
handlers and data model:

* `src/routes/vehicles.js` — vehicle listing (filter / sort / pagination),
  single-vehicle fetch with view-counter increment, create, update, delete;
* `src/unnamed/part_000` (contact routes) — contact form submission and the
  admin contact-status update;
* `src/unnamed/part_001` (Vehicle schema) — field set, enumerations, defaults;
* `src/server.js` — the terminal error handler.

Modelling conventions:

* The document store is a `List` of records passed explicitly; each handler
  returns its HTTP-level outcome together with the store it leaves behind.
* JavaScript numbers are modelled as `Rat` (prices, mileage, year) or
  `Int`/`Nat` where the code only ever holds integers; machine floats carry
  no weight in any claim under scrutiny.
* Query parameters arrive over HTTP as strings; we model a parameter as an
  `Option` of its parsed value, where `some` means a truthy (non-empty)
  string was supplied.  The JavaScript idiom `parseInt(x) || d` is embedded
  by `jsOrInt` (absent or zero falls back to the default).
* Store operations that can throw (Mongoose `CastError` on a malformed
  ObjectId) return `Except`; each route's own `catch` block is embedded by
  matching on the `.error` case, exactly as in the source.
-/

/-- JavaScript `parseInt(x) || d`: absent (NaN) or `0` falls back to `d`. -/
def jsOrInt (o : Option Int) (d : Int) : Int :=
  match o with
  | none => d
  | some x => if x = 0 then d else x

/-- JavaScript `x || d` for an optional numeric status code. -/
def jsOrNat (o : Option Nat) (d : Nat) : Nat :=
  match o with
  | none => d
  | some n => if n = 0 then d else n

/-- JavaScript `x || d` for an optional string (empty string is falsy). -/
def jsOrStr (o : Option String) (d : String) : String :=
  match o with
  | none => d
  | some s => if s = "" then d else s

/-- JavaScript truthiness for an optional string query parameter:
`if (req.query.make)` skips both an absent and an empty-string value. -/
def truthyStr (o : Option String) : Option String :=
  match o with
  | none => none
  | some s => if s = "" then none else some s

/-- One vehicle document, following the schema in the Vehicle model file
(`src/unnamed/part_001`).  `oid` is the Mongo `_id` (a 24-hex-digit
ObjectId rendered as a string).  Fields with no bearing on any verified
behaviour (originalPrice, engine, color, features, badge, location) are
omitted from the embedding. -/
structure Vehicle where
  oid : String
  make : String
  model : String
  year : Rat
  price : Rat
  mileage : Rat
  condition : String
  fuelType : String
  transmission : String
  bodyType : String
  image : String
  dealer : String
  status : String
  views : Nat
  isActive : Bool
  createdAt : Int
deriving DecidableEq

/-- The query-parameter bag of `GET /api/vehicles`
(`src/routes/vehicles.js`, lines 11-54). -/
structure ListQuery where
  page : Option Int
  limit : Option Int
  make : Option String
  model : Option String
  year : Option Int
  condition : Option String
  fuelType : Option String
  transmission : Option String
  bodyType : Option String
  minPrice : Option Rat
  maxPrice : Option Rat
  sortBy : Option String
  sortOrder : Option String
deriving DecidableEq

/-- A listing request with no query parameters at all. -/
def emptyListQuery : ListQuery :=
  ⟨none, none, none, none, none, none, none, none, none, none, none, none, none⟩

/-- One entry of the `errors.array()` payload of a failed validation. -/
structure FieldError where
  field : String
  msg : String
deriving DecidableEq

/-- Validator `query('page').optional().isInt({ min: 1 })`. -/
def checkPage : Option Int → List FieldError
  | none => []
  | some p => if 1 ≤ p then [] else [⟨"page", "Page must be a positive integer"⟩]

/-- Validator `query('limit').optional().isInt({ min: 1, max: 50 })`. -/
def checkLimit : Option Int → List FieldError
  | none => []
  | some l => if 1 ≤ l ∧ l ≤ 50 then [] else [⟨"limit", "Limit must be between 1 and 50"⟩]

/-- Validator `query('minPrice').optional().isFloat({ min: 0 })`. -/
def checkMinPrice : Option Rat → List FieldError
  | none => []
  | some m => if 0 ≤ m then [] else [⟨"minPrice", "Min price must be positive"⟩]

/-- Validator `query('maxPrice').optional().isFloat({ min: 0 })`. -/
def checkMaxPrice : Option Rat → List FieldError
  | none => []
  | some m => if 0 ≤ m then [] else [⟨"maxPrice", "Max price must be positive"⟩]

/-- The whole validator chain of `GET /api/vehicles`
(`src/routes/vehicles.js`, lines 12-15): per-field errors are collected,
never short-circuited. -/
def validateListQuery (q : ListQuery) : List FieldError :=
  checkPage q.page ++ checkLimit q.limit ++ checkMinPrice q.minPrice ++ checkMaxPrice q.maxPrice

/-- The Mongo filter document built by `GET /api/vehicles`
(`src/routes/vehicles.js`, lines 31-46).  `isActive` and `status` are fixed
fields of the object literal on line 32; every other field is only added
when the corresponding query parameter is truthy. -/
structure VehicleFilter where
  isActive : Bool
  status : String
  make : Option String
  model : Option String
  year : Option Int
  condition : Option String
  fuelType : Option String
  transmission : Option String
  bodyType : Option String
  priceMin : Option Rat
  priceMax : Option Rat
deriving DecidableEq

/-- Filter construction (`src/routes/vehicles.js`, lines 31-46). -/
def buildFilter (q : ListQuery) : VehicleFilter :=
  { isActive := true
    status := "available"
    make := truthyStr q.make
    model := truthyStr q.model
    year := q.year
    condition := truthyStr q.condition
    fuelType := truthyStr q.fuelType
    transmission := truthyStr q.transmission
    bodyType := truthyStr q.bodyType
    priceMin := q.minPrice
    priceMax := q.maxPrice }

/-- Does `pat` occur as a contiguous sublist of `l`?  This is the SPEC's
notion of matching for the make and model filters — the field contains the
given text anywhere — written from the spec's words, to be compared with
the code's regex semantics (`regexTestI` below). -/
def charsContain (pat : List Char) : List Char → Bool
  | [] => pat.isEmpty
  | c :: rest => pat.isPrefixOf (c :: rest) || charsContain pat rest

/-- The characters of a string, lower-cased (case folding of the `'i'`
regex flag). -/
def lowerChars (s : String) : List Char :=
  s.toList.map Char.toLower

/-- Regular expressions, as interpreted by `new RegExp(text)` for the
modelled subset: the empty-match and never-match regexes, a literal
character, the dot, a character class (possibly negated, a list of
closed ranges), concatenation, alternation (from the `?` quantifier)
and Kleene star. -/
inductive Rex where
  | nul : Rex
  | emp : Rex
  | chr : Char → Rex
  | any : Rex
  | cls : Bool → List (Char × Char) → Rex
  | seq : Rex → Rex → Rex
  | alt : Rex → Rex → Rex
  | star : Rex → Rex

/-- Does the regex accept the empty string? -/
def nullable : Rex → Bool
  | Rex.nul => false
  | Rex.emp => true
  | Rex.chr _ => false
  | Rex.any => false
  | Rex.cls _ _ => false
  | Rex.seq a b => nullable a && nullable b
  | Rex.alt a b => nullable a || nullable b
  | Rex.star _ => true

/-- Line terminators, which the JavaScript dot does not match. -/
def isLineTerminator (c : Char) : Bool :=
  c = '\n' || c = '\r' || c.val == 8232 || c.val == 8233

/-- Is the character inside one of the class ranges? -/
def inRanges (c : Char) : List (Char × Char) → Bool
  | [] => false
  | (a, b) :: rest => (a ≤ c && c ≤ b) || inRanges c rest

/-- Brzozowski derivative: the residual regex after reading one character. -/
def rderiv (c : Char) : Rex → Rex
  | Rex.nul => Rex.nul
  | Rex.emp => Rex.nul
  | Rex.chr d => if c = d then Rex.emp else Rex.nul
  | Rex.any => if isLineTerminator c then Rex.nul else Rex.emp
  | Rex.cls neg rs => if inRanges c rs = neg then Rex.nul else Rex.emp
  | Rex.seq a b =>
    if nullable a then Rex.alt (Rex.seq (rderiv c a) b) (rderiv c b)
    else Rex.seq (rderiv c a) b
  | Rex.alt a b => Rex.alt (rderiv c a) (rderiv c b)
  | Rex.star a => Rex.seq (rderiv c a) (Rex.star a)

/-- Does some prefix of the input match the regex? -/
def rexPrefix : Rex → List Char → Bool
  | r, [] => nullable r
  | r, c :: rest => nullable r || rexPrefix (rderiv c r) rest

/-- Does the regex match somewhere in the input?  This is the boolean
`test` of an unanchored JavaScript regex. -/
def rexSearch : Rex → List Char → Bool
  | r, [] => nullable r
  | r, c :: rest => rexPrefix r (c :: rest) || rexSearch r rest

/-- Is the character free of regex metacharacter meaning at top level? -/
def isLiteralChar (c : Char) : Bool :=
  !(c == '.' || c == '*' || c == '+' || c == '?' || c == '[' || c == ']' ||
    c == '\\' || c == '(' || c == ')' || c == '|' || c == '^' || c == '$' ||
    c == '{' || c == '}')

/-- Body of a character class, read up to the closing bracket: literal
items and simple ranges.  Escapes inside a class are outside the modelled
subset. -/
def parseClassBody : List Char → Option (List (Char × Char) × List Char)
  | [] => none
  | ']' :: rest => some ([], rest)
  | '\\' :: _ => none
  | a :: '-' :: b :: rest =>
    if b = ']' then some ([(a, a), ('-', '-')], rest)
    else if b = '\\' then none
    else
      match parseClassBody rest with
      | some (items, rem) => some ((a, b) :: items, rem)
      | none => none
  | a :: rest =>
    match parseClassBody rest with
    | some (items, rem) => some ((a, a) :: items, rem)
    | none => none

/-- A character class with its optional leading negation. -/
def parseClassStart (l : List Char) : Option (Bool × List (Char × Char) × List Char) :=
  match l with
  | '^' :: rest =>
    match parseClassBody rest with
    | some (items, rem) => some (true, items, rem)
    | none => none
  | _ =>
    match parseClassBody l with
    | some (items, rem) => some (false, items, rem)
    | none => none

/-- One atom of the pattern: the dot, a character class, an escaped
punctuation character, or a literal character.  Constructs outside the
modelled subset (grouping, alternation, anchors, braces, alphanumeric
escapes) yield none. -/
def parseAtom (l : List Char) : Option (Rex × List Char) :=
  match l with
  | [] => none
  | c :: rest =>
    if c = '.' then some (Rex.any, rest)
    else if c = '[' then
      match parseClassStart rest with
      | some (neg, rs, rem) => some (Rex.cls neg rs, rem)
      | none => none
    else if c = '\\' then
      match rest with
      | [] => none
      | d :: rest2 => if d.isAlphanum then none else some (Rex.chr d, rest2)
    else if isLiteralChar c then some (Rex.chr c, rest)
    else none

/-- The optional postfix quantifier after an atom. -/
def applyQuant (a : Rex) (l : List Char) : Rex × List Char :=
  match l with
  | [] => (a, [])
  | c :: rest =>
    if c = '*' then (Rex.star a, rest)
    else if c = '+' then (Rex.seq a (Rex.star a), rest)
    else if c = '?' then (Rex.alt a Rex.emp, rest)
    else (a, c :: rest)

/-- A pattern as a sequence of quantified atoms; the fuel is an upper
bound on the number of atoms (each consumes at least one character). -/
def parseLoop : Nat → List Char → Option Rex
  | _, [] => some Rex.emp
  | 0, _ :: _ => none
  | f + 1, c :: rest =>
    match parseAtom (c :: rest) with
    | none => none
    | some (a, rem) =>
      match applyQuant a rem with
      | (a2, rem2) =>
        match parseLoop f rem2 with
        | none => none
        | some tail => some (Rex.seq a2 tail)

/-- Parse a pattern of the modelled regex subset. -/
def parseSimpleRegex (l : List Char) : Option Rex :=
  parseLoop (l.length + 1) l

/-- Semantics of the Mongo regex filter `new RegExp(text, 'i')` applied to
a string field (`vehicles.js`, lines 34-35): the caller's text is
interpreted as a regular expression — metacharacters and all — matched
anywhere in the field, case-insensitively (both sides folded to lower
case).  The parser covers literals, the dot, the star, plus and
question-mark quantifiers, character classes and escaped punctuation;
a pattern using a construct outside this subset is outside the modelled
space and the test is conservatively false — no theorem below appeals to
`regexTestI` on such a pattern. -/
def regexTestI (pat s : String) : Bool :=
  match parseSimpleRegex (lowerChars pat) with
  | some r => rexSearch r (lowerChars s)
  | none => false

/-- The regex denoted by a pattern of plain literal characters. -/
def litRex : List Char → Rex
  | [] => Rex.emp
  | c :: rest => Rex.seq (Rex.chr c) (litRex rest)

/-- Does a vehicle document satisfy the Mongo filter?  Conjunction of the
clauses of the filter object, with regex clauses for make and model,
equality clauses for the enumerated fields, and a range clause for price. -/
def matchesFilter (f : VehicleFilter) (v : Vehicle) : Bool :=
  (v.isActive == f.isActive) &&
  ((v.status == f.status) &&
  ((match f.make with | none => true | some pat => regexTestI pat v.make) &&
  ((match f.model with | none => true | some pat => regexTestI pat v.model) &&
  ((match f.year with | none => true | some y => decide (v.year = (y : Rat))) &&
  ((match f.condition with | none => true | some c => v.condition == c) &&
  ((match f.fuelType with | none => true | some c => v.fuelType == c) &&
  ((match f.transmission with | none => true | some c => v.transmission == c) &&
  ((match f.bodyType with | none => true | some c => v.bodyType == c) &&
  ((match f.priceMin with | none => true | some m => decide (m ≤ v.price)) &&
  (match f.priceMax with | none => true | some m => decide (v.price ≤ m)))))))))))

/-- Comparison on a dynamically chosen sort field (`sortBy` may be any field
name; a field not modelled here compares equal on all documents, as a
missing Mongo field would). -/
def fieldLe (f : String) (a b : Vehicle) : Bool :=
  if f = "price" then decide (a.price ≤ b.price)
  else if f = "year" then decide (a.year ≤ b.year)
  else if f = "mileage" then decide (a.mileage ≤ b.mileage)
  else if f = "views" then decide (a.views ≤ b.views)
  else if f = "createdAt" then decide (a.createdAt ≤ b.createdAt)
  else true

/-- Sort specification of `GET /api/vehicles` (`src/routes/vehicles.js`,
lines 48-54): default `{ createdAt: -1 }`; with a truthy `sortBy`, ascending
unless `sortOrder` is exactly the string desc. -/
def sortLe (q : ListQuery) (a b : Vehicle) : Bool :=
  match truthyStr q.sortBy with
  | some f => if q.sortOrder == some "desc" then fieldLe f b a else fieldLe f a b
  | none => decide (b.createdAt ≤ a.createdAt)

/-- Insertion step of the sort used to model the store's ordered fetch. -/
def insertSorted (le : Vehicle → Vehicle → Bool) (v : Vehicle) : List Vehicle → List Vehicle
  | [] => [v]
  | w :: ws => if le v w then v :: w :: ws else w :: insertSorted le v ws

/-- Ordered fetch: the store returns matching documents sorted by the
requested key (insertion sort; tie-break order is irrelevant, and declared
unspecified by the interface contract). -/
def sortVehicles (le : Vehicle → Vehicle → Bool) : List Vehicle → List Vehicle
  | [] => []
  | v :: vs => insertSorted le v (sortVehicles le vs)

/-- Derived pagination values of the listing handler
(`src/routes/vehicles.js`, lines 27-28). -/
def listPage (q : ListQuery) : Int := jsOrInt q.page 1

/-- Derived limit value, `parseInt(req.query.limit) || 10`. -/
def listLimit (q : ListQuery) : Int := jsOrInt q.limit 10

/-- The pagination block of the listing response
(`src/routes/vehicles.js`, lines 68-74). -/
structure Pagination where
  currentPage : Int
  totalPages : Nat
  totalVehicles : Nat
  hasNextPage : Bool
  hasPrevPage : Bool
deriving DecidableEq

/-- The success payload of `GET /api/vehicles`. -/
structure ListOk where
  vehicles : List Vehicle
  pagination : Pagination
deriving DecidableEq

/-- Outcome of the listing route: 200 payload or 400 validation failure. -/
inductive ListResult where
  | ok : ListOk → ListResult
  | validationFailed : List FieldError → ListResult
deriving DecidableEq

/-- Read operations the listing route can issue against the store. -/
inductive StoreOp where
  | findOp : StoreOp
  | countOp : StoreOp
deriving DecidableEq

/-- Full observable behaviour of one listing request: the HTTP result, the
trace of store queries issued, and the store afterwards (the route performs
no writes, which the `store2` component makes checkable). -/
structure ListOutcome where
  result : ListResult
  ops : List StoreOp
  store2 : List Vehicle
deriving DecidableEq

/-- The `GET /api/vehicles` handler (`src/routes/vehicles.js`, lines 16-83).
Validation runs first; on failure the 400 response is returned before any
store access.  Otherwise the handler issues one `find` (sorted, skipped,
limited) and one `countDocuments`, then shapes the response. -/
def getVehiclesHandler (q : ListQuery) (store : List Vehicle) : ListOutcome :=
  match validateListQuery q with
  | [] =>
    let page := listPage q
    let limit := listLimit q
    let skip := (page - 1) * limit
    let filter := buildFilter q
    let matched := store.filter (matchesFilter filter)
    let sorted := sortVehicles (sortLe q) matched
    let vehicles := (sorted.drop skip.toNat).take limit.toNat
    let total := matched.length
    let totalPages := (total + limit.toNat - 1) / limit.toNat
    { result := ListResult.ok
        { vehicles := vehicles
          pagination :=
            { currentPage := page
              totalPages := totalPages
              totalVehicles := total
              hasNextPage := decide (page < (totalPages : Int))
              hasPrevPage := decide (page > 1) } }
      ops := [StoreOp.findOp, StoreOp.countOp]
      store2 := store }
  | e :: es =>
    { result := ListResult.validationFailed (e :: es)
      ops := []
      store2 := store }

/-- The vehicle list carried by a listing outcome (empty on a 400). -/
def resultVehicles (o : ListOutcome) : List Vehicle :=
  match o.result with
  | ListResult.ok lr => lr.vehicles
  | ListResult.validationFailed _ => []

/-- A store error surfaced by Mongoose: a `CastError` for a malformed
ObjectId, or any other failure. -/
inductive JsError where
  | castError : JsError
  | typeError : JsError
  | otherError : JsError
deriving DecidableEq

/-- Is a character one of the hexadecimal digits accepted in an ObjectId? -/
def isHexChar (c : Char) : Bool :=
  c.isDigit || ('a' ≤ c && c ≤ 'f') || ('A' ≤ c && c ≤ 'F')

/-- Mongoose casts a path parameter to an ObjectId: a 24-character hex
string.  Anything else throws a `CastError` on `findById`. -/
def isValidObjectId (s : String) : Bool :=
  s.length == 24 && s.toList.all isHexChar

/-- `Vehicle.findById(id)`: throws a `CastError` on a malformed id,
otherwise resolves to the document with that `_id`, or to null. -/
def findVehicle (id : String) (store : List Vehicle) : Except JsError (Option Vehicle) :=
  if isValidObjectId id then Except.ok (store.find? (fun v => v.oid == id))
  else Except.error JsError.castError

/-- `vehicle.save()`: writes the document back over the stored document
with the same `_id`. -/
def saveVehicle (v : Vehicle) (store : List Vehicle) : List Vehicle :=
  store.map (fun w => if w.oid == v.oid then v else w)

/-- Outcome of `GET /api/vehicles/:id`. -/
inductive VehGetResult where
  | ok : Vehicle → VehGetResult
  | notFound : VehGetResult
  | serverError : VehGetResult
deriving DecidableEq

/-- HTTP status of a single-vehicle fetch outcome: 200 success, 404
Vehicle not found, 500 Server error from the route's catch block. -/
def vehGetStatus : VehGetResult → Nat
  | VehGetResult.ok _ => 200
  | VehGetResult.notFound => 404
  | VehGetResult.serverError => 500

/-- The `GET /api/vehicles/:id` handler (`src/routes/vehicles.js`, lines
88-112): 404 when the id resolves to nothing; otherwise the view counter is
incremented (read, add one, save) and the vehicle returned.  Any thrown
store error, including a `CastError` for a malformed id, is caught by the
route's own catch block and answered with a 500 Server error. -/
def getVehicleByIdHandler (id : String) (store : List Vehicle) : VehGetResult × List Vehicle :=
  match findVehicle id store with
  | Except.error _ => (VehGetResult.serverError, store)
  | Except.ok none => (VehGetResult.notFound, store)
  | Except.ok (some v) =>
    let v2 := { v with views := v.views + 1 }
    (VehGetResult.ok v2, saveVehicle v2 store)

/-- A JSON value appearing in a request body. -/
inductive JsVal where
  | str : String → JsVal
  | num : Rat → JsVal
  | bool : Bool → JsVal
deriving DecidableEq

/-- A JSON object, as an insertion-ordered list of key/value pairs. -/
abbrev JsObj := List (String × JsVal)

/-- Property lookup on a JSON object: the last write to a key wins, which is
also the semantics of object spread (`{...body, dealer: id}` lets the later
`dealer` override any `dealer` inside `body`). -/
def getProp (o : JsObj) (k : String) : Option JsVal :=
  (o.reverse.find? (fun p => p.1 == k)).map (fun p => p.2)

/-- String-valued property of a JSON object. -/
def vstr (o : JsObj) (k : String) : Option String :=
  match getProp o k with
  | some (JsVal.str s) => some s
  | _ => none

/-- Number-valued property of a JSON object. -/
def vnum (o : JsObj) (k : String) : Option Rat :=
  match getProp o k with
  | some (JsVal.num q) => some q
  | _ => none

/-- Boolean-valued property of a JSON object. -/
def vbool (o : JsObj) (k : String) : Option Bool :=
  match getProp o k with
  | some (JsVal.bool b) => some b
  | _ => none

/-- Whitespace recognised by the `.trim()` sanitiser. -/
def isSpaceChar (c : Char) : Bool :=
  c = ' ' || c = '\t' || c = '\n' || c = '\r'

/-- The characters of a string with leading and trailing whitespace
removed (the `.trim()` sanitiser of the validator chains). -/
def trimChars (s : String) : List Char :=
  ((s.toList.dropWhile isSpaceChar).reverse.dropWhile isSpaceChar).reverse

/-- The enumerated fuel types (Vehicle schema and create-route validator). -/
def fuelTypes : List String := ["Petrol", "Diesel", "Hybrid", "Electric", "CNG", "LPG"]

/-- The enumerated transmissions. -/
def transmissions : List String := ["Manual", "Automatic", "CVT", "Semi-Automatic"]

/-- The enumerated body types. -/
def bodyTypes : List String := ["SUV", "Sedan", "Hatchback", "Coupe", "Convertible", "Truck", "Van", "Wagon"]

/-- The enumerated conditions. -/
def conditions : List String := ["New", "Used", "Certified Pre-Owned"]

/-- Validator chain of `POST /api/vehicles` (`src/routes/vehicles.js`,
lines 118-127).  `currentYear` stands for `new Date().getFullYear()`. -/
def validateCreateBody (currentYear : Int) (o : JsObj) : List FieldError :=
  (if trimChars ((vstr o "make").getD "") ≠ [] then [] else [⟨"make", "Make is required"⟩]) ++
  (if trimChars ((vstr o "model").getD "") ≠ [] then [] else [⟨"model", "Model is required"⟩]) ++
  (match vnum o "year" with
   | some y =>
     if y.den = 1 ∧ (1900 : Rat) ≤ y ∧ y ≤ ((currentYear + 1 : Int) : Rat) then []
     else [⟨"year", "Invalid year"⟩]
   | none => [⟨"year", "Invalid year"⟩]) ++
  (match vnum o "price" with
   | some p => if 0 ≤ p then [] else [⟨"price", "Price must be positive"⟩]
   | none => [⟨"price", "Price must be positive"⟩]) ++
  (match vnum o "mileage" with
   | some m => if 0 ≤ m then [] else [⟨"mileage", "Mileage must be positive"⟩]
   | none => [⟨"mileage", "Mileage must be positive"⟩]) ++
  (if trimChars ((vstr o "image").getD "") ≠ [] then [] else [⟨"image", "Image is required"⟩]) ++
  (if (vstr o "fuelType").getD "" ∈ fuelTypes then [] else [⟨"fuelType", "Invalid fuel type"⟩]) ++
  (if (vstr o "transmission").getD "" ∈ transmissions then [] else [⟨"transmission", "Invalid transmission"⟩]) ++
  (if (vstr o "bodyType").getD "" ∈ bodyTypes then [] else [⟨"bodyType", "Invalid body type"⟩]) ++
  (if (vstr o "condition").getD "" ∈ conditions then [] else [⟨"condition", "Invalid condition"⟩])

/-- `Vehicle.create(data)`: a document built from the submitted object,
with the schema defaults of `src/unnamed/part_001` (`status` available,
`views` 0, `isActive` true) where the object supplies nothing.  `oid` and
`now` stand for the system-generated `_id` and the creation timestamp. -/
def vehicleFromData (oid : String) (now : Int) (d : JsObj) : Vehicle :=
  { oid := oid
    make := (vstr d "make").getD ""
    model := (vstr d "model").getD ""
    year := (vnum d "year").getD 0
    price := (vnum d "price").getD 0
    mileage := (vnum d "mileage").getD 0
    condition := (vstr d "condition").getD ""
    fuelType := (vstr d "fuelType").getD ""
    transmission := (vstr d "transmission").getD ""
    bodyType := (vstr d "bodyType").getD ""
    image := (vstr d "image").getD ""
    dealer := (vstr d "dealer").getD ""
    status := (vstr d "status").getD "available"
    views := 0
    isActive := (vbool d "isActive").getD true
    createdAt := now }

/-- An authenticated caller, as attached to the request by the `protect`
middleware: identity and role strings. -/
structure AuthUser where
  id : String
  role : String
deriving DecidableEq

/-- Outcome of `POST /api/vehicles`. -/
inductive CreateResult where
  | forbidden : CreateResult
  | validationFailed : List FieldError → CreateResult
  | created : Vehicle → CreateResult
deriving DecidableEq

/-- The `POST /api/vehicles` handler (`src/routes/vehicles.js`, lines
117-159): role gate (`authorize('dealer', 'admin')`), validation, then
`Vehicle.create({...req.body, dealer: req.user.id})` — the spread is
followed by the `dealer` assignment, so the caller's identity wins. -/
def createVehicleHandler (currentYear : Int) (u : AuthUser) (body : JsObj)
    (oid : String) (now : Int) (store : List Vehicle) : CreateResult × List Vehicle :=
  if u.role = "dealer" ∨ u.role = "admin" then
    match validateCreateBody currentYear body with
    | [] =>
      let vehicleData := body ++ [("dealer", JsVal.str u.id)]
      let v := vehicleFromData oid now vehicleData
      (CreateResult.created v, store ++ [v])
    | e :: es => (CreateResult.validationFailed (e :: es), store)
  else (CreateResult.forbidden, store)

/-- Outcome of `PUT /api/vehicles/:id` or `DELETE /api/vehicles/:id`. -/
inductive MutResult where
  | notFound : MutResult
  | forbidden : MutResult
  | updated : Vehicle → MutResult
  | deleted : MutResult
  | serverError : MutResult
deriving DecidableEq

/-- HTTP status of a mutation outcome: 404 Vehicle not found, 403 Not
authorized, 200 success, 500 from the route's catch block. -/
def mutStatus : MutResult → Nat
  | MutResult.notFound => 404
  | MutResult.forbidden => 403
  | MutResult.updated _ => 200
  | MutResult.deleted => 200
  | MutResult.serverError => 500

/-- `findByIdAndUpdate(id, req.body)`: each recognised body field
overwrites the stored field; absent fields are kept.  `_id`, `views` and
the timestamps are managed by the store, not the body. -/
def applyUpdate (o : JsObj) (v : Vehicle) : Vehicle :=
  { v with
    make := (vstr o "make").getD v.make
    model := (vstr o "model").getD v.model
    year := (vnum o "year").getD v.year
    price := (vnum o "price").getD v.price
    mileage := (vnum o "mileage").getD v.mileage
    condition := (vstr o "condition").getD v.condition
    fuelType := (vstr o "fuelType").getD v.fuelType
    transmission := (vstr o "transmission").getD v.transmission
    bodyType := (vstr o "bodyType").getD v.bodyType
    image := (vstr o "image").getD v.image
    dealer := (vstr o "dealer").getD v.dealer
    status := (vstr o "status").getD v.status
    isActive := (vbool o "isActive").getD v.isActive }

/-- The `PUT /api/vehicles/:id` handler (`src/routes/vehicles.js`, lines
164-201): 404 when the id resolves to nothing; 403 when the caller is
neither the owning dealer nor an admin; otherwise the update is applied.
A thrown store error is caught locally and answered with a 500. -/
def updateVehicleHandler (u : AuthUser) (id : String) (body : JsObj)
    (store : List Vehicle) : MutResult × List Vehicle :=
  match findVehicle id store with
  | Except.error _ => (MutResult.serverError, store)
  | Except.ok none => (MutResult.notFound, store)
  | Except.ok (some v) =>
    if v.dealer ≠ u.id ∧ u.role ≠ "admin" then (MutResult.forbidden, store)
    else
      let v2 := applyUpdate body v
      (MutResult.updated v2, saveVehicle v2 store)

/-- The `DELETE /api/vehicles/:id` handler (`src/routes/vehicles.js`, lines
206-238): same 404 / 403 discipline, then `findByIdAndDelete`. -/
def deleteVehicleHandler (u : AuthUser) (id : String)
    (store : List Vehicle) : MutResult × List Vehicle :=
  match findVehicle id store with
  | Except.error _ => (MutResult.serverError, store)
  | Except.ok none => (MutResult.notFound, store)
  | Except.ok (some v) =>
    if v.dealer ≠ u.id ∧ u.role ≠ "admin" then (MutResult.forbidden, store)
    else (MutResult.deleted, store.eraseP (fun w => w.oid == id))

/-- One contact-inquiry document.  The handlers for it live in the contact
routes (`src/unnamed/part_000`); the Contact schema file itself is not in
the sources, so the creation defaults follow the spec.  Modelled from the
spec: a Contact carries sender name, email, subject, message, the vehicle
and (denormalised) dealer references, an `isRead` flag, and a `status` in
new, in_progress, resolved, closed, with defaults status new and
isRead false on creation. -/
structure Contact where
  id : Nat
  name : String
  email : String
  subject : String
  message : String
  vehicleId : String
  dealerId : String
  status : String
  isRead : Bool
deriving DecidableEq

/-- `Contact.findById` on the contact collection. -/
def findContact (id : Nat) (store : List Contact) : Option Contact :=
  store.find? (fun c => c.id == id)

/-- Write a contact document back over the stored one with the same id. -/
def saveContact (c : Contact) (store : List Contact) : List Contact :=
  store.map (fun x => if x.id == c.id then c else x)

/-- The four admissible contact statuses
(`src/unnamed/part_000`, line 96). -/
def contactStatuses : List String := ["new", "in_progress", "resolved", "closed"]

/-- Outcome of `PUT /api/contact/:id/status`. -/
inductive ContactStatusResult where
  | validationFailed : ContactStatusResult
  | notFound : ContactStatusResult
  | ok : Contact → ContactStatusResult
deriving DecidableEq

/-- The `PUT /api/contact/:id/status` handler (`src/unnamed/part_000`,
lines 95-133): the target status must be one of the four admissible values,
then `findByIdAndUpdate(id, { status, isRead: true })` — no restriction on
the current status. -/
def updateContactStatusHandler (t : String) (id : Nat)
    (store : List Contact) : ContactStatusResult × List Contact :=
  if t ∈ contactStatuses then
    match findContact id store with
    | none => (ContactStatusResult.notFound, store)
    | some c =>
      let c2 := { c with status := t, isRead := true }
      (ContactStatusResult.ok c2, saveContact c2 store)
  else (ContactStatusResult.validationFailed, store)

/-- The body of `POST /api/contact`. -/
structure ContactBody where
  name : String
  email : String
  subject : String
  message : String
  phone : Option String
  vehicleId : String
deriving DecidableEq

/-- The phone pattern of the contact validator
(`src/unnamed/part_000`, line 17): an optional plus sign, one digit 1-9,
then up to fifteen further digits. -/
def phonePatternOk (s : String) : Bool :=
  match s.toList with
  | '+' :: d :: rest => ('1' ≤ d && d ≤ '9') && rest.all Char.isDigit && rest.length ≤ 15
  | d :: rest => ('1' ≤ d && d ≤ '9') && rest.all Char.isDigit && rest.length ≤ 15
  | [] => false

/-- Validator chain of `POST /api/contact` (`src/unnamed/part_000`, lines
13-17).  `emailOk` stands for the external `isEmail` check of the validator
library. -/
def validateContactBody (emailOk : String → Bool) (b : ContactBody) : List FieldError :=
  (if 2 ≤ (trimChars b.name).length then [] else [⟨"name", "Name must be at least 2 characters"⟩]) ++
  (if emailOk b.email then [] else [⟨"email", "Please enter a valid email"⟩]) ++
  (if 5 ≤ (trimChars b.subject).length then [] else [⟨"subject", "Subject must be at least 5 characters"⟩]) ++
  (if 10 ≤ (trimChars b.message).length then [] else [⟨"message", "Message must be at least 10 characters"⟩]) ++
  (match b.phone with
   | none => []
   | some p => if phonePatternOk p then [] else [⟨"phone", "Please enter a valid phone number"⟩])

/-- Outcome of `POST /api/contact`: 400 validation failure, 201 created, or
the 500 Server error produced by the route's catch block (a structured JSON
response with success false). -/
inductive ContactPostResult where
  | validationFailed : List FieldError → ContactPostResult
  | created : Contact → ContactPostResult
  | serverError : ContactPostResult
deriving DecidableEq

/-- The success flag of the JSON response for each contact-post outcome. -/
def contactRespSuccess : ContactPostResult → Bool
  | ContactPostResult.validationFailed _ => false
  | ContactPostResult.created _ => true
  | ContactPostResult.serverError => false

/-- The `POST /api/contact` handler (`src/unnamed/part_000`, lines 18-48).
After validation the handler runs `Vehicle.findById(body.vehicleId)` and
immediately dereferences the result (`vehicle.dealer`): when the lookup
resolves to null this throws a TypeError, and when the id is malformed the
lookup itself throws a CastError; either lands in the route's catch block,
which answers 500 with success false and creates nothing.  On success the
contact is created with the dealer reference copied from the vehicle. -/
def postContactHandler (emailOk : String → Bool) (b : ContactBody)
    (vehicles : List Vehicle) (contacts : List Contact) (freshId : Nat) :
    ContactPostResult × List Contact :=
  match validateContactBody emailOk b with
  | [] =>
    match findVehicle b.vehicleId vehicles with
    | Except.error _ => (ContactPostResult.serverError, contacts)
    | Except.ok none => (ContactPostResult.serverError, contacts)
    | Except.ok (some veh) =>
      let c : Contact :=
        { id := freshId
          name := b.name
          email := b.email
          subject := b.subject
          message := b.message
          vehicleId := b.vehicleId
          dealerId := veh.dealer
          status := "new"
          isRead := false }
      (ContactPostResult.created c, contacts ++ [c])
  | e :: es => (ContactPostResult.validationFailed (e :: es), contacts)

/-- An error object reaching the terminal error handler of `src/server.js`. -/
structure HttpError where
  name : String
  status : Option Nat
  message : Option String
deriving DecidableEq

/-- A terminal JSON error response: status code, success flag, message. -/
structure ErrResponse where
  status : Nat
  success : Bool
  message : String
deriving DecidableEq

/-- The global error handler (`src/server.js`, lines 84-107): maps a
ValidationError or a CastError to 400 and anything else to
`err.status || 500` with `err.message || 'Internal Server Error'`. -/
def globalErrorHandler (e : HttpError) : ErrResponse :=
  if e.name == "ValidationError" then ⟨400, false, "Validation Error"⟩
  else if e.name == "CastError" then ⟨400, false, "Invalid ID format"⟩
  else ⟨jsOrNat e.status 500, false, jsOrStr e.message "Internal Server Error"⟩

/-! ### Shared helper lemmas -/

/-- Membership is preserved by the insertion step of the sort. -/
theorem mem_insertSorted (le : Vehicle → Vehicle → Bool) (v x : Vehicle) (l : List Vehicle) :
    x ∈ insertSorted le v l ↔ x = v ∨ x ∈ l := by
  induction l with
  | nil => simp [insertSorted]
  | cons w ws ih =>
    simp only [insertSorted]
    split
    · simp [List.mem_cons]
    · simp [List.mem_cons, ih]
      tauto

/-- The sorted fetch returns exactly the matching documents. -/
theorem mem_sortVehicles (le : Vehicle → Vehicle → Bool) (x : Vehicle) (l : List Vehicle) :
    x ∈ sortVehicles le l ↔ x ∈ l := by
  induction l with
  | nil => simp [sortVehicles]
  | cons v vs ih => simp [sortVehicles, mem_insertSorted, ih, List.mem_cons]

/-- A document that satisfies the built filter is active and available. -/
theorem matchesFilter_isActive_status (f : VehicleFilter) (v : Vehicle)
    (h : matchesFilter f v = true) : v.isActive = f.isActive ∧ v.status = f.status := by
  unfold matchesFilter at h
  simp only [Bool.and_eq_true, beq_iff_eq] at h
  exact ⟨h.1, h.2.1⟩

/-- The list validator succeeds exactly when each per-field check does. -/
theorem validateListQuery_eq_nil_iff (q : ListQuery) :
    validateListQuery q = [] ↔
      checkPage q.page = [] ∧ checkLimit q.limit = [] ∧
      checkMinPrice q.minPrice = [] ∧ checkMaxPrice q.maxPrice = [] := by
  simp [validateListQuery, List.append_eq_nil, and_assoc]

/-- After a successful validation the effective limit is at least one. -/
theorem listLimit_pos (q : ListQuery) (hval : validateListQuery q = []) :
    1 ≤ listLimit q := by
  obtain ⟨-, hlim, -, -⟩ := (validateListQuery_eq_nil_iff q).mp hval
  cases hq : q.limit with
  | none => simp [listLimit, jsOrInt, hq]
  | some l =>
    rw [hq] at hlim
    have hb : 1 ≤ l ∧ l ≤ 50 := by
      by_contra hc
      simp [checkLimit, hc] at hlim
    simp only [listLimit, jsOrInt, hq]
    split
    · omega
    · exact hb.1

/-- Specification of the `(n + l - 1) / l` rounding used for `totalPages`:
it is the least number of pages covering all `n` matches, that is, the
ceiling of `n / l`. -/
theorem ceilDiv_spec (n l : Nat) (hl : 1 ≤ l) :
    n ≤ ((n + l - 1) / l) * l ∧ ∀ k : Nat, n ≤ k * l → (n + l - 1) / l ≤ k := by
  constructor
  · have hdm := Nat.div_add_mod (n + l - 1) l
    have hml : (n + l - 1) % l < l := Nat.mod_lt _ hl
    rw [Nat.mul_comm]
    generalize l * ((n + l - 1) / l) = m at hdm ⊢
    generalize (n + l - 1) % l = r at hdm hml
    omega
  · intro k hk
    have h2 : n + l - 1 < (k + 1) * l := by
      have hs : (k + 1) * l = k * l + l := Nat.succ_mul k l
      generalize k * l = m at hk hs
      omega
    have h3 := (Nat.div_lt_iff_lt_mul (by omega : 0 < l)).mpr h2
    omega

/-- Replacing the first hit of a search inside a map-with-replace: if
`find?` located `a` and `b` also satisfies the predicate, then after
rewriting every element selected by an equivalent predicate to `b`, the
search finds `b`. -/
theorem find?_map_if {α : Type} (l : List α) (p q : α → Bool) (a b : α)
    (hpq : ∀ x, q x = p x) (h : l.find? p = some a) (hb : p b = true) :
    (l.map (fun x => if q x then b else x)).find? p = some b := by
  have hfun : (fun x => if q x then b else x) = (fun x => if p x then b else x) := by
    funext y
    rw [hpq]
  rw [hfun]
  induction l with
  | nil => simp at h
  | cons x xs ih =>
    by_cases hx : p x = true
    · rw [List.map_cons, if_pos hx, List.find?_cons_of_pos _ hb]
    · rw [List.map_cons, if_neg hx, List.find?_cons_of_neg _ (by simpa using hx)]
      rw [List.find?_cons_of_neg _ (by simpa using hx)] at h
      exact ih h

/-- List containment as an existential prefix split. -/
theorem isPrefixOf_eq_true_iff (p l : List Char) :
    p.isPrefixOf l = true ↔ ∃ t, p ++ t = l := by
  induction p generalizing l with
  | nil => simp [List.isPrefixOf]
  | cons c cs ih =>
    cases l with
    | nil => simp [List.isPrefixOf]
    | cons d ds =>
      simp only [List.isPrefixOf, Bool.and_eq_true, beq_iff_eq, ih, List.cons_append]
      constructor
      · rintro ⟨rfl, t, rfl⟩
        exact ⟨t, rfl⟩
      · rintro ⟨t, ht⟩
        injection ht with h1 h2
        exact ⟨h1, t, h2⟩

/-- Characterisation of `charsContain`: containment of a contiguous
sublist, stated as an explicit decomposition. -/
theorem charsContain_iff (pat l : List Char) :
    charsContain pat l = true ↔ ∃ pre post, l = pre ++ pat ++ post := by
  induction l with
  | nil =>
    simp only [charsContain, List.isEmpty_iff]
    constructor
    · rintro rfl
      exact ⟨[], [], rfl⟩
    · rintro ⟨pre, post, h⟩
      rcases List.append_eq_nil.mp (List.append_eq_nil.mp h.symm).1 with ⟨-, h2⟩
      exact h2
  | cons c rest ih =>
    simp only [charsContain, Bool.or_eq_true, ih, isPrefixOf_eq_true_iff]
    constructor
    · rintro (⟨t, ht⟩ | ⟨pre, post, rfl⟩)
      · exact ⟨[], t, by simp [ht.symm]⟩
      · exact ⟨c :: pre, post, by simp⟩
    · rintro ⟨pre, post, h⟩
      cases pre with
      | nil =>
        left
        exact ⟨post, by simpa using h.symm⟩
      | cons d pre2 =>
        right
        rw [List.cons_append, List.cons_append] at h
        injection h with h1 h2
        exact ⟨pre2, post, h2⟩

/-- Object spread followed by a property assignment: the assigned value
wins on lookup. -/
theorem getProp_append_last (o : JsObj) (k : String) (val : JsVal) :
    getProp (o ++ [(k, val)]) k = some val := by
  simp [getProp, List.reverse_append, List.find?_cons]

/-- A pattern of literal regex characters accepts the empty string exactly
when it is empty. -/
theorem nullable_litRex (p : List Char) : nullable (litRex p) = p.isEmpty := by
  cases p <;> rfl

/-- A sequence headed by the never-match regex matches no prefix. -/
theorem rexPrefix_nulSeq (r : Rex) (l : List Char) :
    rexPrefix (Rex.seq Rex.nul r) l = false := by
  induction l generalizing r with
  | nil => rfl
  | cons c rest ih => exact ih r

/-- Prefix matching distributes over alternation. -/
theorem rexPrefix_alt (a b : Rex) (l : List Char) :
    rexPrefix (Rex.alt a b) l = (rexPrefix a l || rexPrefix b l) := by
  induction l generalizing a b with
  | nil => rfl
  | cons c rest ih =>
    show ((nullable a || nullable b) ||
        rexPrefix (Rex.alt (rderiv c a) (rderiv c b)) rest) =
      ((nullable a || rexPrefix (rderiv c a) rest) ||
        (nullable b || rexPrefix (rderiv c b) rest))
    rw [ih]
    cases nullable a <;> cases nullable b <;>
      simp [Bool.or_assoc, Bool.or_comm, Bool.or_left_comm]

/-- A sequence headed by the empty-match regex matches what its tail does. -/
theorem rexPrefix_empSeq (r : Rex) (l : List Char) :
    rexPrefix (Rex.seq Rex.emp r) l = rexPrefix r l := by
  cases l with
  | nil => rfl
  | cons c rest =>
    show (nullable r ||
        rexPrefix (Rex.alt (Rex.seq Rex.nul r) (rderiv c r)) rest) = _
    rw [rexPrefix_alt, rexPrefix_nulSeq]
    rfl

/-- Prefix matching of a literal pattern is list prefix containment. -/
theorem rexPrefix_litRex (p l : List Char) :
    rexPrefix (litRex p) l = p.isPrefixOf l := by
  induction l generalizing p with
  | nil => cases p <;> rfl
  | cons c rest ih =>
    cases p with
    | nil => rfl
    | cons d p2 =>
      show (false || rexPrefix (Rex.seq (if c = d then Rex.emp else Rex.nul) (litRex p2)) rest) =
        ((d == c) && p2.isPrefixOf rest)
      by_cases hc : c = d
      · subst hc
        rw [if_pos rfl]
        show rexPrefix (Rex.seq Rex.emp (litRex p2)) rest = ((c == c) && p2.isPrefixOf rest)
        rw [rexPrefix_empSeq, ih, beq_self_eq_true, Bool.true_and]
      · rw [if_neg hc]
        show rexPrefix (Rex.seq Rex.nul (litRex p2)) rest = ((d == c) && p2.isPrefixOf rest)
        rw [rexPrefix_nulSeq]
        have hdc : (d == c) = false := by
          simp [Ne.symm hc]
        rw [hdc, Bool.false_and]

/-- Unanchored matching of a literal pattern is the spec's containment. -/
theorem rexSearch_litRex (p l : List Char) :
    rexSearch (litRex p) l = charsContain p l := by
  induction l with
  | nil => exact nullable_litRex p
  | cons c rest ih =>
    show (rexPrefix (litRex p) (c :: rest) || rexSearch (litRex p) rest) = _
    rw [rexPrefix_litRex, ih]
    rfl

/-- A literal character differs from each metacharacter the parser tests. -/
theorem literal_ne (c : Char) (hc : isLiteralChar c = true) :
    c ≠ '.' ∧ c ≠ '[' ∧ c ≠ '\\' ∧ c ≠ '*' ∧ c ≠ '+' ∧ c ≠ '?' := by
  simp only [isLiteralChar, Bool.not_eq_eq_eq_not, Bool.not_true, Bool.or_eq_false_iff,
    beq_eq_false_iff_ne, ne_eq] at hc
  exact ⟨hc.1.1.1.1.1.1.1.1.1.1.1.1.1, hc.1.1.1.1.1.1.1.1.1.2, hc.1.1.1.1.1.1.1.2,
    hc.1.1.1.1.1.1.1.1.1.1.1.1.2, hc.1.1.1.1.1.1.1.1.1.1.1.2, hc.1.1.1.1.1.1.1.1.1.1.2⟩

/-- Parsing a non-empty pattern of literal characters yields the literal
regex, given enough fuel. -/
theorem parseLoop_literal : ∀ (fuel : Nat) (l : List Char),
    l.all isLiteralChar = true → l.length < fuel →
    parseLoop fuel l = some (litRex l) := by
  intro fuel
  induction fuel with
  | zero =>
    intro l _ hlen
    omega
  | succ f ih =>
    intro l hl hlen
    cases l with
    | nil => rfl
    | cons c rest =>
      rw [List.all_cons, Bool.and_eq_true] at hl
      obtain ⟨hc, hrest⟩ := hl
      obtain ⟨h1, h2, h3, -, -, -⟩ := literal_ne c hc
      have hatom : parseAtom (c :: rest) = some (Rex.chr c, rest) := by
        simp [parseAtom, h1, h2, h3, hc]
      have hquant : applyQuant (Rex.chr c) rest = (Rex.chr c, rest) := by
        cases rest with
        | nil => rfl
        | cons d r2 =>
          have hd : isLiteralChar d = true := by
            rw [List.all_cons, Bool.and_eq_true] at hrest
            exact hrest.1
          obtain ⟨-, -, -, g4, g5, g6⟩ := literal_ne d hd
          simp [applyQuant, g4, g5, g6]
      have hlen2 : rest.length < f := by
        simp only [List.length_cons] at hlen
        omega
      simp only [parseLoop, hatom, hquant, ih rest hrest hlen2]
      rfl

/-- Parsing a pattern of literal characters yields the literal regex. -/
theorem parseSimpleRegex_literal (l : List Char) (hl : l.all isLiteralChar = true) :
    parseSimpleRegex l = some (litRex l) :=
  parseLoop_literal (l.length + 1) l hl (by omega)

/-- On metacharacter-free patterns, the code's regex test coincides with
the spec's case-insensitive substring containment. -/
theorem regexTestI_literal (pat s : String)
    (hl : (lowerChars pat).all isLiteralChar = true) :
    regexTestI pat s = charsContain (lowerChars pat) (lowerChars s) := by
  unfold regexTestI
  rw [parseSimpleRegex_literal _ hl]
  exact rexSearch_litRex _ _

/-! ### Sample data used by the concrete witnesses -/

/-- A concrete active, available vehicle owned by dealer d1. -/
def sampleVehicle : Vehicle :=
  { oid := "aaaaaaaaaaaaaaaaaaaaaaaa"
    make := "Toyota"
    model := "Corolla"
    year := 2020
    price := 15000
    mileage := 42
    condition := "Used"
    fuelType := "Petrol"
    transmission := "Manual"
    bodyType := "Sedan"
    image := "img.png"
    dealer := "d1"
    status := "available"
    views := 0
    isActive := true
    createdAt := 5 }

/-! ### Claim theorems -/

/-- C1: for every GET /vehicles listing request, whatever combination of
query parameters is supplied, every vehicle in the returned page satisfies
isActive = true and status = available; the filter sent to the store always
contains these two conjuncts and no caller-supplied parameter can remove or
override them. -/
theorem listing_always_active_available (q : ListQuery) (store : List Vehicle) (v : Vehicle)
    (hv : v ∈ resultVehicles (getVehiclesHandler q store)) :
    v.isActive = true ∧ v.status = "available" ∧
    (buildFilter q).isActive = true ∧ (buildFilter q).status = "available" := by
  cases herr : validateListQuery q with
  | cons e es =>
    simp [resultVehicles, getVehiclesHandler, herr] at hv
  | nil =>
    simp only [resultVehicles, getVehiclesHandler, herr] at hv
    have h1 := List.mem_of_mem_take hv
    have h2 := List.mem_of_mem_drop h1
    have h3 := (mem_sortVehicles _ _ _).mp h2
    have h4 := (List.mem_filter.mp h3).2
    have h5 := matchesFilter_isActive_status _ _ h4
    exact ⟨h5.1, h5.2, rfl, rfl⟩

/-- Witness for C1: a concrete listing over a one-vehicle store. -/
theorem listing_always_active_available_witness :
    sampleVehicle.isActive = true ∧ sampleVehicle.status = "available" ∧
    (buildFilter emptyListQuery).isActive = true ∧
    (buildFilter emptyListQuery).status = "available" :=
  listing_always_active_available emptyListQuery [sampleVehicle] sampleVehicle (by decide)

/-- C6 counterexample: the listing code hands the caller's text to the
regex engine, so the request make=.* matches the sample vehicle although
the text .* is not contained in its make Toyota as a case-insensitive
substring — the claimed equivalence between matching and substring
containment fails on the program. -/
theorem make_filter_substring_counterexample :
    matchesFilter (buildFilter { emptyListQuery with make := some ".*" }) sampleVehicle = true ∧
    charsContain (lowerChars ".*") (lowerChars sampleVehicle.make) = false := by
  decide

/-- C6 amended: for every listing request supplying make or model whose
text is free of regex metacharacters, a stored active and available
vehicle matches the built filter exactly when the corresponding field
contains the supplied text as a case-insensitive substring anywhere (not
exact equality); text containing metacharacters is instead interpreted as
a regular expression.  In particular the pattern toyo matches the stored
make Toyota. -/
theorem make_model_filter_ci_substring (pat : String) (v : Vehicle)
    (hp : pat ≠ "") (hlit : (lowerChars pat).all isLiteralChar = true)
    (ha : v.isActive = true) (hs : v.status = "available") :
    (matchesFilter (buildFilter { emptyListQuery with make := some pat }) v = true ↔
      ∃ pre post, lowerChars v.make = pre ++ lowerChars pat ++ post) ∧
    (matchesFilter (buildFilter { emptyListQuery with model := some pat }) v = true ↔
      ∃ pre post, lowerChars v.model = pre ++ lowerChars pat ++ post) ∧
    regexTestI "toyo" "Toyota" = true := by
  have hmk := regexTestI_literal pat v.make hlit
  have hmd := regexTestI_literal pat v.model hlit
  refine ⟨?_, ?_, by decide⟩
  · simp [matchesFilter, buildFilter, truthyStr, emptyListQuery, hp, ha, hs, hmk,
      charsContain_iff]
  · simp [matchesFilter, buildFilter, truthyStr, emptyListQuery, hp, ha, hs, hmd,
      charsContain_iff]

/-- Witness for the amended C6: the metacharacter-free pattern toyo
against the sample vehicle (make Toyota, model Corolla). -/
theorem make_model_filter_ci_substring_witness :
    (matchesFilter (buildFilter { emptyListQuery with make := some "toyo" }) sampleVehicle = true ↔
      ∃ pre post, lowerChars sampleVehicle.make = pre ++ lowerChars "toyo" ++ post) ∧
    (matchesFilter (buildFilter { emptyListQuery with model := some "toyo" }) sampleVehicle = true ↔
      ∃ pre post, lowerChars sampleVehicle.model = pre ++ lowerChars "toyo" ++ post) ∧
    regexTestI "toyo" "Toyota" = true :=
  make_model_filter_ci_substring "toyo" sampleVehicle (by decide) (by decide)
    (by decide) (by decide)

/-- C7 counterexample: a malformed path identifier on GET /vehicles/:id is
answered by the route's own catch block with a 500 server fault, not the
400 invalid-input response the claim asserts. -/
theorem castError_route_counterexample :
    vehGetStatus (getVehicleByIdHandler "not-an-object-id" []).1 = 500 ∧
    vehGetStatus (getVehicleByIdHandler "not-an-object-id" []).1 ≠ 400 := by
  decide

/-- C7 amended: the terminal error handler's CastError branch does map a
malformed-identifier error to a 400 invalid-input response, but every
vehicle endpoint that resolves a record by identifier (GET, PUT and DELETE
on /vehicles/:id) catches store errors locally and answers 500, so a
malformed path identifier on those endpoints yields a generic server
fault, never the 400. -/
theorem castError_amended (e : HttpError) (id : String) (u : AuthUser) (body : JsObj)
    (store : List Vehicle) (he : e.name = "CastError") (hid : isValidObjectId id = false) :
    globalErrorHandler e = ⟨400, false, "Invalid ID format"⟩ ∧
    (getVehicleByIdHandler id store).1 = VehGetResult.serverError ∧
    vehGetStatus (getVehicleByIdHandler id store).1 = 500 ∧
    (updateVehicleHandler u id body store).1 = MutResult.serverError ∧
    (deleteVehicleHandler u id store).1 = MutResult.serverError := by
  have hfv : findVehicle id store = Except.error JsError.castError := by
    simp [findVehicle, hid]
  refine ⟨?_, ?_, ?_, ?_, ?_⟩
  · simp [globalErrorHandler, he]
  · simp [getVehicleByIdHandler, hfv]
  · simp [getVehicleByIdHandler, hfv, vehGetStatus]
  · simp [updateVehicleHandler, hfv]
  · simp [deleteVehicleHandler, hfv]

/-- Witness for the amended C7: a concrete malformed identifier. -/
theorem castError_amended_witness :
    globalErrorHandler ⟨"CastError", none, none⟩ = ⟨400, false, "Invalid ID format"⟩ ∧
    (getVehicleByIdHandler "zzz" [sampleVehicle]).1 = VehGetResult.serverError ∧
    vehGetStatus (getVehicleByIdHandler "zzz" [sampleVehicle]).1 = 500 ∧
    (updateVehicleHandler ⟨"d1", "dealer"⟩ "zzz" [] [sampleVehicle]).1 = MutResult.serverError ∧
    (deleteVehicleHandler ⟨"d1", "dealer"⟩ "zzz" [sampleVehicle]).1 = MutResult.serverError :=
  castError_amended ⟨"CastError", none, none⟩ "zzz" ⟨"d1", "dealer"⟩ [] [sampleVehicle]
    rfl (by decide)

/-- C10: for every authenticated create request that passes validation, the
created vehicle's dealer reference equals the caller's identity, even when
the request body carries its own dealer field: the spread is followed by
the dealer assignment, so the body's value is always overridden. -/
theorem create_dealer_overridden (currentYear : Int) (u : AuthUser) (body : JsObj)
    (oid : String) (now : Int) (store : List Vehicle)
    (hrole : u.role = "dealer" ∨ u.role = "admin")
    (hval : validateCreateBody currentYear body = []) :
    ∃ v, createVehicleHandler currentYear u body oid now store = (CreateResult.created v, store ++ [v]) ∧
      v.dealer = u.id ∧
      getProp (body ++ [("dealer", JsVal.str u.id)]) "dealer" = some (JsVal.str u.id) := by
  refine ⟨vehicleFromData oid now (body ++ [("dealer", JsVal.str u.id)]), ?_, ?_,
    getProp_append_last body "dealer" (JsVal.str u.id)⟩
  · unfold createVehicleHandler
    rw [if_pos hrole, hval]
  · simp [vehicleFromData, vstr, getProp_append_last]

/-- A concrete create body that passes validation and tries to smuggle in
a foreign dealer reference. -/
def sampleCreateBody : JsObj :=
  [("make", JsVal.str "Toyota"), ("model", JsVal.str "Corolla"),
   ("year", JsVal.num 2020), ("price", JsVal.num 15000),
   ("mileage", JsVal.num 42), ("image", JsVal.str "img.png"),
   ("fuelType", JsVal.str "Petrol"), ("transmission", JsVal.str "Manual"),
   ("bodyType", JsVal.str "Sedan"), ("condition", JsVal.str "Used"),
   ("dealer", JsVal.str "intruder")]

/-- Witness for C10: the body's dealer field intruder is overridden by the
caller's identity. -/
theorem create_dealer_overridden_witness :
    ∃ v, createVehicleHandler 2026 ⟨"dealer1", "dealer"⟩ sampleCreateBody "cccccccccccccccccccccccc" 7 [] =
        (CreateResult.created v, [] ++ [v]) ∧
      v.dealer = "dealer1" ∧
      getProp (sampleCreateBody ++ [("dealer", JsVal.str "dealer1")]) "dealer" = some (JsVal.str "dealer1") :=
  create_dealer_overridden 2026 ⟨"dealer1", "dealer"⟩ sampleCreateBody "cccccccccccccccccccccccc" 7 []
    (Or.inl rfl) (by decide)

/-- C4: for every authenticated update or delete of a vehicle, a missing
vehicle yields the 404 not-found outcome and a caller who is neither the
owning dealer nor an admin yields the 403 authorization outcome; in both
cases the store is left untouched, and the two failure kinds are distinct
outcomes with distinct status codes. -/
theorem vehicle_mutation_auth (u : AuthUser) (id : String) (body : JsObj) (s : List Vehicle) :
    ((findVehicle id s = Except.ok none →
        updateVehicleHandler u id body s = (MutResult.notFound, s) ∧
        deleteVehicleHandler u id s = (MutResult.notFound, s)) ∧
      (∀ v, findVehicle id s = Except.ok (some v) → v.dealer ≠ u.id → u.role ≠ "admin" →
        updateVehicleHandler u id body s = (MutResult.forbidden, s) ∧
        deleteVehicleHandler u id s = (MutResult.forbidden, s))) ∧
    mutStatus MutResult.forbidden = 403 ∧ mutStatus MutResult.notFound = 404 ∧
    MutResult.forbidden ≠ MutResult.notFound := by
  refine ⟨⟨?_, ?_⟩, rfl, rfl, by decide⟩
  · intro h
    constructor
    · simp [updateVehicleHandler, h]
    · simp [deleteVehicleHandler, h]
  · intro v hv hd hr
    constructor
    · simp [updateVehicleHandler, hv, if_pos (And.intro hd hr)]
    · simp [deleteVehicleHandler, hv, if_pos (And.intro hd hr)]

/-- Witness for C4: a non-owning, non-admin caller against the sample
vehicle is refused with the 403 outcome and the store is unchanged. -/
theorem vehicle_mutation_auth_witness :
    updateVehicleHandler ⟨"u2", "user"⟩ "aaaaaaaaaaaaaaaaaaaaaaaa" [] [sampleVehicle] =
        (MutResult.forbidden, [sampleVehicle]) ∧
    deleteVehicleHandler ⟨"u2", "user"⟩ "aaaaaaaaaaaaaaaaaaaaaaaa" [sampleVehicle] =
        (MutResult.forbidden, [sampleVehicle]) :=
  (vehicle_mutation_auth ⟨"u2", "user"⟩ "aaaaaaaaaaaaaaaaaaaaaaaa" [] [sampleVehicle]).1.2
    sampleVehicle rfl (by decide) (by decide)

/-- C5: for every existing contact inquiry in any current status and every
admin-invoked status update with a target among the four admissible values,
the operation succeeds, sets the status to the target (no adjacency
restriction) and always sets isRead to true; a target outside the set is
rejected with a validation error and the store is unchanged. -/
theorem contact_status_update (t : String) (id : Nat) (s : List Contact) (c : Contact)
    (hc : findContact id s = some c) :
    (t ∈ contactStatuses →
      (updateContactStatusHandler t id s).1 = ContactStatusResult.ok { c with status := t, isRead := true } ∧
      findContact id (updateContactStatusHandler t id s).2 = some { c with status := t, isRead := true }) ∧
    (t ∉ contactStatuses →
      updateContactStatusHandler t id s = (ContactStatusResult.validationFailed, s)) := by
  constructor
  · intro ht
    have hc2 : s.find? (fun x => x.id == id) = some c := hc
    have hcid2 : c.id = id := by simpa using List.find?_some hc2
    have hcid : (c.id == id) = true := by simp [hcid2]
    constructor
    · simp [updateContactStatusHandler, ht, hc]
    · simp only [updateContactStatusHandler, if_pos ht, hc]
      unfold findContact saveContact
      refine find?_map_if s _ _ c _ ?_ hc2 ?_
      · intro x
        show (x.id == c.id) = (x.id == id)
        rw [hcid2]
      · exact hcid
  · intro ht
    simp [updateContactStatusHandler, ht]

/-- A concrete contact inquiry sitting in the closed status. -/
def sampleContact : Contact :=
  { id := 1
    name := "Jo"
    email := "jo@example.com"
    subject := "Hello there"
    message := "A sufficiently long message"
    vehicleId := "aaaaaaaaaaaaaaaaaaaaaaaa"
    dealerId := "d1"
    status := "closed"
    isRead := false }

/-- Witness for C5: the closed sample inquiry is moved back to new, and the
stored record afterwards has status new and isRead true. -/
theorem contact_status_update_witness :
    (updateContactStatusHandler "new" 1 [sampleContact]).1 =
        ContactStatusResult.ok { sampleContact with status := "new", isRead := true } ∧
    findContact 1 (updateContactStatusHandler "new" 1 [sampleContact]).2 =
        some { sampleContact with status := "new", isRead := true } :=
  (contact_status_update "new" 1 [sampleContact] sampleContact rfl).1 (by decide)

/-- C8: for every contact submission that passes field validation but whose
vehicleId resolves to no existing vehicle, the handler surfaces the
structured server-error response (success false) produced by its catch
block — the null dereference does not escape — and no contact record is
created. -/
theorem contact_missing_vehicle (emailOk : String → Bool) (b : ContactBody)
    (vehicles : List Vehicle) (contacts : List Contact) (freshId : Nat)
    (hval : validateContactBody emailOk b = [])
    (hmiss : findVehicle b.vehicleId vehicles = Except.ok none) :
    postContactHandler emailOk b vehicles contacts freshId = (ContactPostResult.serverError, contacts) ∧
    contactRespSuccess ContactPostResult.serverError = false := by
  constructor
  · simp [postContactHandler, hval, hmiss]
  · rfl

/-- A contact body whose vehicle reference is a well-formed ObjectId that
matches no stored vehicle. -/
def sampleContactBody : ContactBody :=
  { name := "Jo"
    email := "jo@example.com"
    subject := "Hello there"
    message := "A sufficiently long message"
    phone := none
    vehicleId := "bbbbbbbbbbbbbbbbbbbbbbbb" }

/-- Witness for C8: the sample submission against a store that does not
contain the referenced vehicle. -/
theorem contact_missing_vehicle_witness :
    postContactHandler (fun _ => true) sampleContactBody [sampleVehicle] [] 7 =
        (ContactPostResult.serverError, []) ∧
    contactRespSuccess ContactPostResult.serverError = false :=
  contact_missing_vehicle (fun _ => true) sampleContactBody [sampleVehicle] [] 7 rfl rfl

/-- C9: every successful single-vehicle fetch increments that vehicle's
view counter by exactly one; two fetches in sequence leave the stored
counter exactly two above its initial value; and the listing operation
leaves the store untouched. -/
theorem view_counter_increments (id : String) (store : List Vehicle) (v : Vehicle) (q : ListQuery)
    (h : findVehicle id store = Except.ok (some v)) :
    (getVehicleByIdHandler id store).1 = VehGetResult.ok { v with views := v.views + 1 } ∧
    findVehicle id (getVehicleByIdHandler id store).2 =
      Except.ok (some { v with views := v.views + 1 }) ∧
    findVehicle id (getVehicleByIdHandler id (getVehicleByIdHandler id store).2).2 =
      Except.ok (some { v with views := v.views + 2 }) ∧
    (getVehiclesHandler q store).store2 = store := by
  unfold findVehicle at h
  by_cases hvalid : isValidObjectId id = true
  case neg =>
    rw [if_neg (by simpa using hvalid)] at h
    cases h
  case pos =>
    rw [if_pos hvalid] at h
    have hfind : store.find? (fun w => w.oid == id) = some v := by
      simpa using h
    have hvid : v.oid = id := by
      simpa using List.find?_some hfind
    have step : ∀ (s2 : List Vehicle) (w : Vehicle),
        s2.find? (fun x => x.oid == id) = some w →
        getVehicleByIdHandler id s2 =
          (VehGetResult.ok { w with views := w.views + 1 },
           saveVehicle { w with views := w.views + 1 } s2) := by
      intro s2 w hw
      unfold getVehicleByIdHandler findVehicle
      rw [if_pos hvalid, hw]
    have hsave : ∀ (s2 : List Vehicle) (w w2 : Vehicle),
        s2.find? (fun x => x.oid == id) = some w → w2.oid = id →
        (saveVehicle w2 s2).find? (fun x => x.oid == id) = some w2 := by
      intro s2 w w2 hw hw2
      unfold saveVehicle
      refine find?_map_if s2 _ _ w _ ?_ hw ?_
      · intro x
        rw [hw2]
      · simp [hw2]
    have h1 := step store v hfind
    have hs1 := hsave store v { v with views := v.views + 1 } hfind hvid
    have h2 := step _ _ hs1
    have hs2 := hsave _ _ { v with views := v.views + 1 + 1 } hs1 hvid
    refine ⟨by rw [h1], ?_, ?_, ?_⟩
    · rw [h1]
      unfold findVehicle
      rw [if_pos hvalid, hs1]
    · rw [h1, h2]
      unfold findVehicle
      rw [if_pos hvalid]
      exact congrArg Except.ok hs2
    · cases herr : validateListQuery q with
      | nil => simp [getVehiclesHandler, herr]
      | cons e es => simp [getVehiclesHandler, herr]

/-- Witness for C9: two fetches of the sample vehicle leave its stored view
counter at two. -/
theorem view_counter_increments_witness :
    (getVehicleByIdHandler "aaaaaaaaaaaaaaaaaaaaaaaa" [sampleVehicle]).1 =
        VehGetResult.ok { sampleVehicle with views := sampleVehicle.views + 1 } ∧
    findVehicle "aaaaaaaaaaaaaaaaaaaaaaaa" (getVehicleByIdHandler "aaaaaaaaaaaaaaaaaaaaaaaa" [sampleVehicle]).2 =
        Except.ok (some { sampleVehicle with views := sampleVehicle.views + 1 }) ∧
    findVehicle "aaaaaaaaaaaaaaaaaaaaaaaa"
        (getVehicleByIdHandler "aaaaaaaaaaaaaaaaaaaaaaaa"
          (getVehicleByIdHandler "aaaaaaaaaaaaaaaaaaaaaaaa" [sampleVehicle]).2).2 =
        Except.ok (some { sampleVehicle with views := sampleVehicle.views + 2 }) ∧
    (getVehiclesHandler emptyListQuery [sampleVehicle]).store2 = [sampleVehicle] :=
  view_counter_increments "aaaaaaaaaaaaaaaaaaaaaaaa" [sampleVehicle] sampleVehicle
    emptyListQuery rfl

/-- C2: for every listing request passing validation, the handler returns
at most limit vehicles, namely the window that skips the first
(page - 1) * limit sorted matches; the pagination block carries
currentPage = page, totalVehicles = the count of all matches,
totalPages = the ceiling of total / limit (characterised as the least
number of pages covering all matches), hasNextPage exactly when
page < totalPages and hasPrevPage exactly when page > 1; page defaults to 1
and limit to 10 when absent. -/
theorem listing_pagination_contract (q : ListQuery) (store : List Vehicle)
    (hval : validateListQuery q = []) :
    ∃ lr, (getVehiclesHandler q store).result = ListResult.ok lr ∧
      lr.vehicles.length ≤ (listLimit q).toNat ∧
      lr.vehicles = ((sortVehicles (sortLe q) (store.filter (matchesFilter (buildFilter q)))).drop
          (((listPage q - 1) * listLimit q).toNat)).take (listLimit q).toNat ∧
      lr.pagination.currentPage = listPage q ∧
      lr.pagination.totalVehicles = (store.filter (matchesFilter (buildFilter q))).length ∧
      lr.pagination.totalVehicles ≤ lr.pagination.totalPages * (listLimit q).toNat ∧
      (∀ k : Nat, lr.pagination.totalVehicles ≤ k * (listLimit q).toNat →
        lr.pagination.totalPages ≤ k) ∧
      lr.pagination.hasNextPage = decide (listPage q < (lr.pagination.totalPages : Int)) ∧
      lr.pagination.hasPrevPage = decide (listPage q > 1) ∧
      (q.page = none → listPage q = 1) ∧
      (q.limit = none → listLimit q = 10) := by
  have hL : 1 ≤ listLimit q := listLimit_pos q hval
  have hLn : 1 ≤ (listLimit q).toNat := by omega
  have hc := ceilDiv_spec (store.filter (matchesFilter (buildFilter q))).length
    (listLimit q).toNat hLn
  unfold getVehiclesHandler
  rw [hval]
  refine ⟨_, rfl, List.length_take_le _ _, rfl, rfl, rfl, hc.1, hc.2, rfl, rfl, ?_, ?_⟩
  · intro h
    simp [listPage, jsOrInt, h]
  · intro h
    simp [listLimit, jsOrInt, h]

/-- Witness for C2: the default listing over a one-vehicle store. -/
theorem listing_pagination_contract_witness :
    ∃ lr, (getVehiclesHandler emptyListQuery [sampleVehicle]).result = ListResult.ok lr ∧
      lr.vehicles.length ≤ (listLimit emptyListQuery).toNat ∧
      lr.vehicles = ((sortVehicles (sortLe emptyListQuery)
          ([sampleVehicle].filter (matchesFilter (buildFilter emptyListQuery)))).drop
          (((listPage emptyListQuery - 1) * listLimit emptyListQuery).toNat)).take
          (listLimit emptyListQuery).toNat ∧
      lr.pagination.currentPage = listPage emptyListQuery ∧
      lr.pagination.totalVehicles =
        ([sampleVehicle].filter (matchesFilter (buildFilter emptyListQuery))).length ∧
      lr.pagination.totalVehicles ≤ lr.pagination.totalPages * (listLimit emptyListQuery).toNat ∧
      (∀ k : Nat, lr.pagination.totalVehicles ≤ k * (listLimit emptyListQuery).toNat →
        lr.pagination.totalPages ≤ k) ∧
      lr.pagination.hasNextPage =
        decide (listPage emptyListQuery < (lr.pagination.totalPages : Int)) ∧
      lr.pagination.hasPrevPage = decide (listPage emptyListQuery > 1) ∧
      (emptyListQuery.page = none → listPage emptyListQuery = 1) ∧
      (emptyListQuery.limit = none → listLimit emptyListQuery = 10) :=
  listing_pagination_contract emptyListQuery [sampleVehicle] rfl

/-- A listing request asking for limit 51, everything else default. -/
def limit51Query : ListQuery := { emptyListQuery with limit := some 51 }

/-- A listing request asking for limit 50, everything else default. -/
def limit50Query : ListQuery := { emptyListQuery with limit := some 50 }

/-- C3: every listing request with a malformed pagination or price
parameter (non-positive page, limit outside one to fifty, negative
minPrice or maxPrice) is rejected with a non-empty structured list of
per-field validation errors and no store query, neither count nor fetch,
is executed; an out-of-range limit is rejected rather than clamped, while
a request whose limit is exactly fifty (with the other parameters valid)
succeeds. -/
theorem listing_validation_rejects (q q2 : ListQuery) (s t : List Vehicle)
    (hbad : (∃ p, q.page = some p ∧ p < 1) ∨ (∃ l, q.limit = some l ∧ (l < 1 ∨ 50 < l)) ∨
            (∃ m, q.minPrice = some m ∧ m < 0) ∨ (∃ m, q.maxPrice = some m ∧ m < 0))
    (h50 : q2.limit = some 50)
    (hpage : ∀ p, q2.page = some p → 1 ≤ p)
    (hmin : ∀ m, q2.minPrice = some m → 0 ≤ m)
    (hmax : ∀ m, q2.maxPrice = some m → 0 ≤ m) :
    ((∃ errs, (getVehiclesHandler q s).result = ListResult.validationFailed errs ∧ errs ≠ []) ∧
      (getVehiclesHandler q s).ops = []) ∧
    ∃ lr, (getVehiclesHandler q2 t).result = ListResult.ok lr := by
  have hne : validateListQuery q ≠ [] := by
    intro h0
    obtain ⟨h1, h2, h3, h4⟩ := (validateListQuery_eq_nil_iff q).mp h0
    rcases hbad with ⟨p, hp, hplt⟩ | ⟨l, hl, hlb⟩ | ⟨m, hm, hmlt⟩ | ⟨m, hm, hmlt⟩
    · rw [hp] at h1
      simp [checkPage, show ¬(1 ≤ p) by omega] at h1
    · rw [hl] at h2
      simp [checkLimit, show ¬(1 ≤ l ∧ l ≤ 50) by omega] at h2
    · rw [hm] at h3
      simp [checkMinPrice, not_le.mpr hmlt] at h3
    · rw [hm] at h4
      simp [checkMaxPrice, not_le.mpr hmlt] at h4
  have hq2 : validateListQuery q2 = [] := by
    refine (validateListQuery_eq_nil_iff q2).mpr ⟨?_, ?_, ?_, ?_⟩
    · cases hp2 : q2.page with
      | none => rfl
      | some p => simp [checkPage, hpage p hp2]
    · rw [h50]
      simp [checkLimit]
    · cases hm2 : q2.minPrice with
      | none => rfl
      | some m => simp [checkMinPrice, hmin m hm2]
    · cases hm2 : q2.maxPrice with
      | none => rfl
      | some m => simp [checkMaxPrice, hmax m hm2]
  cases herr : validateListQuery q with
  | nil => exact absurd herr hne
  | cons e es =>
    refine ⟨⟨⟨e :: es, ?_, by simp⟩, ?_⟩, ?_⟩
    · simp [getVehiclesHandler, herr]
    · simp [getVehiclesHandler, herr]
    · unfold getVehiclesHandler
      rw [hq2]
      exact ⟨_, rfl⟩

/-- Witness for C3: limit 51 is rejected before any store access and
limit 50 succeeds. -/
theorem listing_validation_rejects_witness :
    ((∃ errs, (getVehiclesHandler limit51Query []).result = ListResult.validationFailed errs ∧
        errs ≠ []) ∧
      (getVehiclesHandler limit51Query []).ops = []) ∧
    ∃ lr, (getVehiclesHandler limit50Query []).result = ListResult.ok lr :=
  listing_validation_rejects limit51Query limit50Query [] []
    (Or.inr (Or.inl ⟨51, rfl, Or.inr (by omega)⟩))
    rfl
    (fun p hp => Option.noConfusion hp)
    (fun m hm => Option.noConfusion hm)
    (fun m hm => Option.noConfusion hm)
